import Mathlib

/-!
Verification of the prompt-context assembly and request-dispatch pipeline of
the AurelAI code-review assistant (TypeScript sources `src/services/ai.ts`,
`src/store/useStore.ts`).  JavaScript strings are modelled as `List Char`;
each definition below is a direct translation of the corresponding source
function.  The asynchronous network transports (proxy fetch, OpenAI client)
are modelled by passing their outcomes as explicit `Except` parameters to the
dispatch function, which is otherwise a faithful translation of the
control flow of `aiService.sendMessage`.
-/

/-- JavaScript strings, modelled as lists of characters. -/
abbrev Str := List Char

/-- JavaScript `String.prototype.includes`: substring containment test.
`containsSub s pat` scans every suffix of `s` for `pat` as a prefix. -/
def containsSub : Str → Str → Bool
  | [], pat => pat.isEmpty
  | c :: rest, pat => pat.isPrefixOf (c :: rest) || containsSub rest pat

/-- JavaScript `String.prototype.lastIndexOf('\n')`: index of the last
line-break, `-1` when there is none. -/
def lastIndexOfNl : Str → Int
  | [] => -1
  | c :: rest =>
    let r := lastIndexOfNl rest
    if r ≥ 0 then r + 1 else if c = '\n' then 0 else -1

/-- JavaScript `String.prototype.split('\n')`. -/
def splitNl : Str → List Str
  | [] => [[]]
  | c :: rest =>
    match splitNl rest with
    | [] => [[]]
    | s :: ss => if c = '\n' then [] :: s :: ss else (c :: s) :: ss

/-- JavaScript `Array.prototype.join('\n')` over a list of strings. -/
def joinNl : List Str → Str
  | [] => []
  | [s] => s
  | s :: rest => s ++ '\n' :: joinNl rest

/-- JavaScript number-to-string coercion for the natural numbers that are
interpolated into template literals. -/
def natStr (n : Nat) : Str := (Nat.repr n).data

/-- The fixed marker appended by `truncateText`
(`'\n\n... [truncated - code too long]'` in the source). -/
def truncMarker : Str := ("\n\n... [truncated - code too long]").data

/-- `MAX_CODE_CONTEXT_LENGTH` from `ai.ts`. -/
def MAX_CODE_CONTEXT_LENGTH : Nat := 15000

/-- `MAX_FILE_CONTEXT_LENGTH` from `ai.ts`. -/
def MAX_FILE_CONTEXT_LENGTH : Nat := 5000

/-- `MAX_HISTORY_MESSAGES` from `ai.ts`. -/
def MAX_HISTORY_MESSAGES : Nat := 10

/-- Result record of `truncateText`. -/
structure TruncationResult where
  text : Str
  truncated : Bool
  deriving DecidableEq

/-- `truncateText` from `ai.ts`: slice to `maxLength`, prefer cutting at the
last line-break of the slice when that position exceeds `0.8 * maxLength`
(the JavaScript float comparison `lastNewline > maxLength * 0.8` agrees with
the exact integer comparison `5 * lastNewline > 4 * maxLength` for every
`maxLength` in range, in particular the budgets 15000 and 5000 used here),
then append the fixed marker. -/
def truncateText (text : Str) (maxLength : Nat) : TruncationResult :=
  if text.length ≤ maxLength then
    { text := text, truncated := false }
  else
    let truncated := text.take maxLength
    let lastNewline := lastIndexOfNl truncated
    let cutPoint : Int := if 5 * lastNewline > 4 * (maxLength : Int) then lastNewline else (maxLength : Int)
    { text := truncated.take cutPoint.toNat ++ truncMarker, truncated := true }

/-- `detectLanguage` from `ai.ts`: keyword-based language detection, used only
when the hint is absent or the generic `'plaintext'` placeholder. -/
def detectLanguage (code : Str) (hint : Str) : Str :=
  if hint ≠ [] ∧ hint ≠ (("plaintext").data) then hint
  else if containsSub code (("import React").data) || containsSub code (("useState").data) || containsSub code (("jsx").data) then ("typescript/react").data
  else if containsSub code (("def ").data) && containsSub code ((":").data) then ("python").data
  else if containsSub code (("func ").data) && containsSub code (("package ").data) then ("go").data
  else if containsSub code (("fn ").data) && containsSub code (("let mut").data) then ("rust").data
  else if containsSub code (("public class").data) || containsSub code (("private void").data) then ("java").data
  else if containsSub code (("#include").data) || containsSub code (("std::").data) then ("cpp").data
  else if containsSub code (("const ").data) || containsSub code (("let ").data) || containsSub code (("function ").data) then ("javascript").data
  else if containsSub code (("interface ").data) || containsSub code ((": string").data) || containsSub code ((": number").data) then ("typescript").data
  else if containsSub code (("<html").data) || containsSub code (("<!DOCTYPE").data) then ("html").data
  else if containsSub code (("\x7b").data) && containsSub code ((":").data) && containsSub code ((";").data) then ("css").data
  else if hint ≠ [] then hint else ("unknown").data

/-- Fixed template text of `buildSystemPrompt` before the first
`detectedLang` interpolation. -/
def promptPre1 : Str := ("You are an expert senior software engineer providing a focused, specific code review. You have deep expertise in ").data

/-- Template text between `detectedLang` and the `lineCount` interpolation. -/
def promptPre2 : Str := (".\n\n## Code Under Review (").data

/-- Template text between `lineCount` and the fenced code block opening. -/
def promptPre3 : Str := (" lines)\n```").data

/-- Template text closing the fenced code block, up to the conditional
large-file block. -/
def promptPre4 : Str := ("\n```\n").data

/-- The conditional `LARGE FILE WARNING` block of `buildSystemPrompt`,
emitted when the line count exceeds 100. -/
def largeFileBlock (lineCount : Nat) : Str :=
  (("\n## LARGE FILE WARNING (").data) ++ natStr lineCount ++
  ((" lines)\nThis is a large code selection. When providing improved code:\n- You MUST still return the complete code block, but prioritize the most important changes\n- Make sure your response completes - don\x27t let it get cut off\n- If the code is too large to return completely, clearly state this and provide the most critical sections\n").data)

/-- Template text from `## CRITICAL INSTRUCTIONS` up to the
`Review Focus Areas` language interpolation. -/
def promptTail1 : Str := ("\n## CRITICAL INSTRUCTIONS - READ CAREFULLY\n\n### Be Specific, Not Generic\n- **NEVER** give generic advice like \"consider adding error handling\" without pointing to the exact location\n- **ALWAYS** reference specific function names, variable names, or line numbers from the code above\n- **ALWAYS** explain issues in terms of THIS code, not hypothetical scenarios\n- If the code has no issues, say \"This code looks good\" and explain why briefly\n\n### What Makes a Good vs Bad Response\n\n**BAD (generic, unhelpful):**\n- \"Consider adding input validation\"\n- \"You might want to add error handling\"\n- \"Consider using TypeScript types\"\n\n**GOOD (specific, actionable):**\n- \"The `calculateTotal` function on line 5 doesn\x27t handle the case where `items` is null\"\n- \"The `userId` parameter in `fetchUser(userId)` should be validated before the API call\"\n- \"The `data` variable is typed as `any` - specify the expected shape: `\x7b name: string; age: number \x7d`\"\n\n### Review Focus Areas for ").data

/-- Template text from the focus-area list up to the
`Use ...` code-fence language interpolation. -/
def promptTail2 : Str := ("\n1. **Bugs**: Logic errors, null handling, async issues, edge cases\n2. **Security**: Injection vulnerabilities, data exposure, auth flaws\n3. **Performance**: Unnecessary operations, memory issues, N+1 queries\n4. **Quality**: Naming, complexity, duplication, error handling\n\n### Response Format\n1. **Quick Summary**: One sentence describing what this code does and your main finding\n2. **Specific Findings**: List concrete issues with exact references to the code\n3. **Improved Code**: If suggesting changes, provide the COMPLETE improved code\n\n### Code Suggestions - CRITICAL\n- **ALWAYS return the ENTIRE code block** with your changes applied, not just the modified portion\n- The user will use \"Apply Changes\" to replace their selection with your code block\n- If you only return a snippet, the rest of their code will be deleted\n- Use ```").data

/-- Template text from `code blocks` up to the WRONG-example fence. -/
def promptTail3 : Str := (" code blocks\n- Make minimal changes to the code itself, but ALWAYS include the full context\n- Include brief inline comments explaining significant changes\n\n**Example - WRONG (partial code):**\n```").data

/-- The WRONG example body, up to the CORRECT-example fence. -/
def promptTail4 : Str := ("\n// Just showing the fix:\nif (items != null) \x7b\n    return items.reduce((a, b) => a + b, 0);\n\x7d\n```\n\n**Example - CORRECT (complete code):**\n```").data

/-- The CORRECT example body, closing the template. -/
def promptTail5 : Str := ("\nfunction calculateTotal(items) \x7b\n    // Added null check\n    if (items == null) \x7b\n        return 0;\n    \x7d\n    return items.reduce((a, b) => a + b, 0);\n\x7d\n```").data

/-- `buildSystemPrompt` from `ai.ts` (final version): resolves the language
label, counts lines, and emits the fixed-structure instruction document,
including the `LARGE FILE WARNING` block exactly when the line count
exceeds 100. -/
def buildSystemPrompt (codeContext : Str) (language : Str) : Str :=
  let detectedLang := detectLanguage codeContext language
  let lineCount := (splitNl codeContext).length
  let isLargeFile := lineCount > 100
  promptPre1 ++ detectedLang ++ promptPre2 ++ natStr lineCount ++ promptPre3 ++
  detectedLang ++ (("\n").data) ++ codeContext ++ promptPre4 ++
  (if isLargeFile then largeFileBlock lineCount else []) ++
  promptTail1 ++ detectedLang ++ promptTail2 ++ detectedLang ++ promptTail3 ++
  detectedLang ++ promptTail4 ++ detectedLang ++ promptTail5

/-- An entry of the store's `openFiles` list. -/
structure OpenFile where
  id : Str
  name : Str
  content : Str
  language : Str
  deriving DecidableEq

/-- The truncation note queued when the primary code context was truncated. -/
def primaryTruncNote : Str := ("\n\n> Note: The selected code was truncated due to length. Focus on the visible portion.").data

/-- The section header inserted before the open-file contexts. -/
def otherFilesHeader : Str := ("\n\n## Other Open Files:\n").data

/-- The per-file labelled section built inside `aiService.sendMessage` for one
retained open file: name, language, an inline ` [truncated]` indicator when
that file's content was cut, and the (possibly truncated) content in a fence. -/
def fileSection (f : OpenFile) : Str :=
  let tr := truncateText f.content MAX_FILE_CONTEXT_LENGTH
  let truncateIndicator : Str := if tr.truncated then (" [truncated]").data else []
  (("\n### File: ").data) ++ f.name ++ ((" (").data) ++ f.language ++ ((")").data) ++
  truncateIndicator ++ (("\n```").data) ++ f.language ++ (("\n").data) ++ tr.text ++ (("\n```").data)

/-- The note queued when open files beyond `maxFiles` were dropped. -/
def omittedFilesNote (maxFiles shown : Nat) : Str :=
  (("\n> Note: Only showing ").data) ++ natStr maxFiles ++ ((" of ").data) ++ natStr shown ++ ((" open files for context.").data)

/-- The context-assembly stage of `aiService.sendMessage` (ai.ts, final
version): truncate the primary code context to `MAX_CODE_CONTEXT_LENGTH`,
retain at most 5 open files (each content truncated to
`MAX_FILE_CONTEXT_LENGTH`), and append the queued truncation notes. -/
def assembleContext (codeContext : Str) (openFiles : List OpenFile) : Str :=
  let tr := truncateText codeContext MAX_CODE_CONTEXT_LENGTH
  let truncationNote0 : Str := if tr.truncated then primaryTruncNote else []
  if openFiles.length > 0 then
    let maxFiles := 5
    let limitedFiles := openFiles.take maxFiles
    let filesContext := joinNl (limitedFiles.map fileSection)
    let truncationNote :=
      truncationNote0 ++
      (if openFiles.length > maxFiles then omittedFilesNote maxFiles openFiles.length else [])
    let enhancedContext := tr.text ++ otherFilesHeader ++ filesContext
    if truncationNote ≠ [] then enhancedContext ++ truncationNote else enhancedContext
  else
    if truncationNote0 ≠ [] then tr.text ++ truncationNote0 else tr.text

/-- Message of the `API key required` rejection in `aiService.sendMessage`. -/
def apiKeyRequiredMsg : Str := ("API key required. Please add your OpenAI API key in Settings.").data

/-- Message of the `Invalid API key` (bad prefix) rejection in
`aiService.sendMessage`. -/
def invalidApiKeyMsg : Str := ("Invalid API key. OpenAI API keys start with \"sk-\".").data

/-- Message produced for provider failures mentioning `rate limit`. -/
def rateLimitedMsg : Str := ("Rate limit exceeded. Please wait a moment and try again.").data

/-- Message produced for provider failures mentioning `context length` or
`maximum`. -/
def contextTooLargeMsg : Str := ("The code is too long to analyze. Try selecting a smaller portion.").data

/-- Message produced for provider failures mentioning `API key`. -/
def credentialRejectedMsg : Str := ("Invalid API key. Please check your settings.").data

/-- Default response substituted for an empty or absent provider message. -/
def noResponseMsg : Str := ("No response generated.").data

/-- The provider-error classification of `aiService.sendMessage` (the catch
block around the direct `OpenAIService` call): case-sensitive substring
checks, first match wins, unmatched messages propagate unmodified. -/
def classifyError (message : Str) : Str :=
  if containsSub message (("rate limit").data) then rateLimitedMsg
  else if containsSub message (("context length").data) || containsSub message (("maximum").data) then contextTooLargeMsg
  else if containsSub message (("API key").data) then credentialRejectedMsg
  else message

/-- `OpenAIService.sendMessage` response extraction:
`completion.choices[0].message.content || "No response generated."` — a
`null`/absent or empty content string is replaced by the fixed default. -/
def respContent (content : Option Str) : Str :=
  match content with
  | none => noResponseMsg
  | some s => if s.isEmpty then noResponseMsg else s

/-- JavaScript truthiness check `!apiKey` on the store's
`apiKey: string | null` field: `null` and the empty string are falsy. -/
def apiKeyMissing (apiKey : Option Str) : Bool :=
  match apiKey with
  | none => true
  | some s => s.isEmpty

instance exceptDecEq {α β : Type} [DecidableEq α] [DecidableEq β] :
    DecidableEq (Except α β) := fun x y =>
  match x, y with
  | Except.ok a, Except.ok b =>
    if h : a = b then isTrue (by rw [h]) else isFalse (fun hh => by cases hh; exact h rfl)
  | Except.error a, Except.error b =>
    if h : a = b then isTrue (by rw [h]) else isFalse (fun hh => by cases hh; exact h rfl)
  | Except.ok _, Except.error _ => isFalse (fun hh => by cases hh)
  | Except.error _, Except.ok _ => isFalse (fun hh => by cases hh)

/-- The `isProxyUnavailable` classification inside `aiService.sendMessage`:
a proxy failure is fallback-eligible exactly when its message mentions
`not configured`, `404` or `Failed to fetch`. -/
def isProxyUnavailable (proxyMessage : Str) : Bool :=
  containsSub proxyMessage (("not configured").data) ||
  containsSub proxyMessage (("404").data) ||
  containsSub proxyMessage (("Failed to fetch").data)

/-- Outcome of one `aiService.sendMessage` dispatch, together with the
network calls it issued. -/
structure DispatchResult where
  result : Except Str Str
  proxyCalled : Bool
  fallbackEntered : Bool
  directCalled : Bool
  deriving DecidableEq

/-- The request-dispatch stage of `aiService.sendMessage` (ai.ts, final
version).  The two network transports are passed in as their outcomes:
`proxyRes` is what awaiting `sendViaProxy` produced (content, or the thrown
message), and `directContent` is the provider completion content that the
direct `OpenAIService` call would deliver (`Except.ok` carries
`choices[0].message.content`, possibly `null`/empty; `Except.error` carries
the thrown provider message).  The proxy is invoked unconditionally first;
on a proxy failure whose message signals `not configured`, `404` or
`Failed to fetch` the credential-checked client-side fallback is entered,
and every other proxy failure is rethrown unchanged. -/
def sendMessageDispatch (apiKey : Option Str) (proxyRes : Except Str Str)
    (directContent : Except Str (Option Str)) : DispatchResult :=
  match proxyRes with
  | Except.ok content =>
    { result := Except.ok content, proxyCalled := true, fallbackEntered := false, directCalled := false }
  | Except.error proxyMessage =>
    if !isProxyUnavailable proxyMessage then
      { result := Except.error proxyMessage, proxyCalled := true, fallbackEntered := false, directCalled := false }
    else if apiKeyMissing apiKey then
      { result := Except.error apiKeyRequiredMsg, proxyCalled := true, fallbackEntered := true, directCalled := false }
    else
      match apiKey with
      | none =>
        { result := Except.error apiKeyRequiredMsg, proxyCalled := true, fallbackEntered := true, directCalled := false }
      | some key =>
        if !(List.isPrefixOf (("sk-").data) key) then
          { result := Except.error invalidApiKeyMsg, proxyCalled := true, fallbackEntered := true, directCalled := false }
        else
          match directContent with
          | Except.ok content =>
            { result := Except.ok (respContent content), proxyCalled := true, fallbackEntered := true, directCalled := true }
          | Except.error message =>
            { result := Except.error (classifyError message), proxyCalled := true, fallbackEntered := true, directCalled := true }

/-- Message role, from `useStore.ts`. -/
inductive Role where
  | user
  | assistant
  deriving DecidableEq

/-- `Message` from `useStore.ts`. -/
structure Message where
  id : Str
  role : Role
  content : Str
  timestamp : Int
  deriving DecidableEq

/-- The selection range of a thread, from `useStore.ts`. -/
structure SelRange where
  startLineNumber : Nat
  endLineNumber : Nat
  startColumn : Nat
  endColumn : Nat
  deriving DecidableEq

/-- `Thread` from `useStore.ts`. -/
structure Thread where
  id : Str
  range : Option SelRange
  messages : List Message
  codeContext : Str
  deriving DecidableEq

/-- The `currentFile` store field; the runtime `FileSystemFileHandle` object
is opaque to this model, only the name is represented. -/
structure CurrentFile where
  name : Str
  deriving DecidableEq

/-- A saved snippet, from `useStore.ts`. -/
structure Snippet where
  id : Str
  name : Str
  code : Str
  language : Str
  deriving DecidableEq

/-- The global zustand store state, from `useStore.ts`. -/
structure Store where
  threads : List Thread
  activeSelection : Option SelRange
  activeThreadId : Option Str
  language : Str
  apiKey : Option Str
  currentFile : Option CurrentFile
  openFiles : List OpenFile
  activeFileId : Option Str
  snippets : List Snippet
  deriving DecidableEq

/-- `addMessageToThread` from `useStore.ts`: map over the thread list,
appending the message to the thread whose id matches; the `set` call
touches only the `threads` field. -/
def addMessageToThread (s : Store) (threadId : Str) (message : Message) : Store :=
  { s with threads := s.threads.map (fun t =>
      if t.id = threadId then { t with messages := t.messages ++ [message] } else t) }

/-- A 150-line input (the repository's own test input for the large-file
warning: 150 copies of `const x = 1;` joined by line-breaks). -/
def code150 : Str := joinNl (List.replicate 150 (("const x = 1;").data))

/-- A 50-line input of the same shape. -/
def code50 : Str := joinNl (List.replicate 50 (("const x = 1;").data))

/-- A sample open file whose 6000-character content exceeds the per-file
budget. -/
def sampleFile (k : Nat) : OpenFile :=
  { id := natStr k, name := (("file").data) ++ natStr k,
    content := List.replicate 6000 'a', language := ("typescript").data }

/-- Six open files, one more than the retained maximum. -/
def files6 : List OpenFile :=
  [sampleFile 1, sampleFile 2, sampleFile 3, sampleFile 4, sampleFile 5, sampleFile 6]

/-- A 20000-character primary code context. -/
def code20000 : Str := List.replicate 20000 'a'

/-- A sample chat message. -/
def sampleMessage : Message :=
  { id := ("m1").data, role := Role.user, content := ("hi there").data, timestamp := 0 }

/-- A sample store state with two threads. -/
def store0 : Store :=
  { threads :=
      [{ id := ("t1").data, range := none, messages := [], codeContext := ("const a = 1;").data },
       { id := ("t2").data, range := some { startLineNumber := 1, endLineNumber := 2, startColumn := 1, endColumn := 5 },
         messages := [sampleMessage], codeContext := [] }],
    activeSelection := none,
    activeThreadId := some (("t1").data),
    language := ("javascript").data,
    apiKey := none,
    currentFile := none,
    openFiles := [],
    activeFileId := none,
    snippets := [] }

/-! ### Basic lemmas about the string primitives -/

theorem containsSub_nil (s : Str) : containsSub s [] = true := by
  cases s with
  | nil => rfl
  | cons c rest => simp [containsSub, List.isPrefixOf]

theorem isPrefixOf_self (p : Str) : List.isPrefixOf p p = true := by
  induction p with
  | nil => rfl
  | cons c rest ih => simp [List.isPrefixOf, ih]

theorem isPrefixOf_append_of (p x y : Str) (h : List.isPrefixOf p x = true) :
    List.isPrefixOf p (x ++ y) = true := by
  induction p generalizing x with
  | nil => simp [List.isPrefixOf]
  | cons a ps ih =>
    cases x with
    | nil => simp [List.isPrefixOf] at h
    | cons b xs =>
      simp only [List.cons_append, List.isPrefixOf] at h ⊢
      simp only [Bool.and_eq_true] at h ⊢
      exact ⟨h.1, ih xs h.2⟩

theorem containsSub_of_isPrefixOf (s pat : Str) (h : List.isPrefixOf pat s = true) :
    containsSub s pat = true := by
  cases s with
  | nil =>
    cases pat with
    | nil => rfl
    | cons a ps => simp [List.isPrefixOf] at h
  | cons c rest => simp [containsSub, h]

theorem containsSub_cons_of (c : Char) (s pat : Str) (h : containsSub s pat = true) :
    containsSub (c :: s) pat = true := by
  simp [containsSub, h]

theorem containsSub_append_right (x y pat : Str) (h : containsSub y pat = true) :
    containsSub (x ++ y) pat = true := by
  induction x with
  | nil => simpa using h
  | cons c xs ih => simpa using containsSub_cons_of c (xs ++ y) pat ih

theorem containsSub_append_left (x y pat : Str) (h : containsSub x pat = true) :
    containsSub (x ++ y) pat = true := by
  induction x with
  | nil =>
    cases pat with
    | nil => simpa using containsSub_nil y
    | cons a ps => simp [containsSub, List.isEmpty] at h
  | cons c xs ih =>
    simp only [containsSub, Bool.or_eq_true] at h
    rcases h with h | h
    · exact containsSub_of_isPrefixOf _ _ (isPrefixOf_append_of _ _ y h)
    · simpa using containsSub_cons_of c (xs ++ y) pat (ih h)

theorem splitNl_ne_nil (s : Str) : splitNl s ≠ [] := by
  cases s with
  | nil => simp [splitNl]
  | cons c rest =>
    simp only [splitNl]
    cases h : splitNl rest with
    | nil => simp
    | cons a as => by_cases hc : c = '\n' <;> simp [hc]

theorem splitNl_length (s : Str) : (splitNl s).length = s.count '\n' + 1 := by
  induction s with
  | nil => simp [splitNl]
  | cons c rest ih =>
    rcases hsp : splitNl rest with _ | ⟨a, as⟩
    · exact absurd hsp (splitNl_ne_nil rest)
    · rw [hsp] at ih
      by_cases hc : c = '\n'
      · subst hc
        have hstep : splitNl ('\n' :: rest) = [] :: a :: as := by
          simp only [splitNl, hsp]
          simp
        rw [hstep, List.count_cons]
        simp only [List.length_cons] at ih ⊢
        simp
        omega
      · have hstep : splitNl (c :: rest) = (c :: a) :: as := by
          simp only [splitNl, hsp]
          simp [hc]
        rw [hstep, List.count_cons]
        simp only [List.length_cons] at ih ⊢
        simp [hc]
        omega

theorem count_nl_joinNl (chunk : Str) (hc : chunk.count '\n' = 0) :
    ∀ n, (joinNl (List.replicate (n + 1) chunk)).count '\n' = n := by
  intro n
  induction n with
  | zero => simpa [joinNl] using hc
  | succ k ih =>
    have h2 : List.replicate (k + 2) chunk = chunk :: chunk :: List.replicate k chunk := rfl
    rw [h2]
    show (chunk ++ '\n' :: joinNl (chunk :: List.replicate k chunk)).count '\n' = k + 1
    have h3 : (chunk :: List.replicate k chunk) = List.replicate (k + 1) chunk := rfl
    rw [h3, List.count_append, List.count_cons, ih, hc]
    simp

/-! ### Basic lemmas about `truncateText` -/

theorem truncateText_of_le (t : Str) (m : Nat) (h : t.length ≤ m) :
    truncateText t m = { text := t, truncated := false } := by
  simp [truncateText, h]

theorem truncateText_of_lt (t : Str) (m : Nat) (h : m < t.length) :
    truncateText t m =
      { text := (t.take m).take
          (if 5 * lastIndexOfNl (t.take m) > 4 * (m : Int) then lastIndexOfNl (t.take m)
           else (m : Int)).toNat ++ truncMarker,
        truncated := true } := by
  rw [truncateText, if_neg (by omega)]

theorem truncateText_truncated_of_lt (t : Str) (m : Nat) (h : m < t.length) :
    (truncateText t m).truncated = true := by
  rw [truncateText_of_lt t m h]

theorem truncateText_len_le (t : Str) (m : Nat) (h : m < t.length) :
    (truncateText t m).text.length ≤ m + truncMarker.length := by
  rw [truncateText_of_lt t m h]
  simp only [List.length_append, List.length_take]
  have h1 : min m t.length ≤ m := Nat.min_le_left _ _
  omega

/-! ### Case lemmas for the dispatch stage -/

theorem dispatch_proxy_ok (key : Option Str) (c : Str) (d : Except Str (Option Str)) :
    sendMessageDispatch key (Except.ok c) d =
      { result := Except.ok c, proxyCalled := true, fallbackEntered := false, directCalled := false } := rfl

theorem dispatch_real_error (key : Option Str) (pm : Str) (d : Except Str (Option Str))
    (h : isProxyUnavailable pm = false) :
    sendMessageDispatch key (Except.error pm) d =
      { result := Except.error pm, proxyCalled := true, fallbackEntered := false, directCalled := false } := by
  simp [sendMessageDispatch, h]

theorem dispatch_missing_key (key : Option Str) (pm : Str) (d : Except Str (Option Str))
    (hu : isProxyUnavailable pm = true) (hk : apiKeyMissing key = true) :
    sendMessageDispatch key (Except.error pm) d =
      { result := Except.error apiKeyRequiredMsg, proxyCalled := true, fallbackEntered := true, directCalled := false } := by
  simp [sendMessageDispatch, hu, hk]

theorem dispatch_invalid_key (k : Str) (pm : Str) (d : Except Str (Option Str))
    (hu : isProxyUnavailable pm = true) (hk : k.isEmpty = false)
    (hp : List.isPrefixOf (("sk-").data) k = false) :
    sendMessageDispatch (some k) (Except.error pm) d =
      { result := Except.error invalidApiKeyMsg, proxyCalled := true, fallbackEntered := true, directCalled := false } := by
  simp [sendMessageDispatch, hu, apiKeyMissing, hk, hp]

theorem dispatch_direct_ok (k : Str) (pm : Str) (c : Option Str)
    (hu : isProxyUnavailable pm = true) (hk : k.isEmpty = false)
    (hp : List.isPrefixOf (("sk-").data) k = true) :
    sendMessageDispatch (some k) (Except.error pm) (Except.ok c) =
      { result := Except.ok (respContent c), proxyCalled := true, fallbackEntered := true, directCalled := true } := by
  simp [sendMessageDispatch, hu, apiKeyMissing, hk, hp]

theorem dispatch_direct_error (k : Str) (pm : Str) (em : Str)
    (hu : isProxyUnavailable pm = true) (hk : k.isEmpty = false)
    (hp : List.isPrefixOf (("sk-").data) k = true) :
    sendMessageDispatch (some k) (Except.error pm) (Except.error em) =
      { result := Except.error (classifyError em), proxyCalled := true, fallbackEntered := true, directCalled := true } := by
  simp [sendMessageDispatch, hu, apiKeyMissing, hk, hp]

theorem dispatch_proxyCalled (key : Option Str) (pr : Except Str Str) (d : Except Str (Option Str)) :
    (sendMessageDispatch key pr d).proxyCalled = true := by
  cases pr with
  | ok c => rfl
  | error pm =>
    cases hu : isProxyUnavailable pm with
    | false => rw [dispatch_real_error key pm d hu]
    | true =>
      cases hk : apiKeyMissing key with
      | true => rw [dispatch_missing_key key pm d hu hk]
      | false =>
        cases key with
        | none => simp [apiKeyMissing] at hk
        | some k =>
          cases hp : List.isPrefixOf (("sk-").data) k with
          | false => rw [dispatch_invalid_key k pm d hu (by simpa [apiKeyMissing] using hk) hp]
          | true =>
            cases d with
            | ok c => rw [dispatch_direct_ok k pm c hu (by simpa [apiKeyMissing] using hk) hp]
            | error em => rw [dispatch_direct_error k pm em hu (by simpa [apiKeyMissing] using hk) hp]

theorem dispatch_fallback_of_unavailable (key : Option Str) (pm : Str) (d : Except Str (Option Str))
    (hu : isProxyUnavailable pm = true) :
    (sendMessageDispatch key (Except.error pm) d).fallbackEntered = true := by
  cases hk : apiKeyMissing key with
  | true => rw [dispatch_missing_key key pm d hu hk]
  | false =>
    cases key with
    | none => simp [apiKeyMissing] at hk
    | some k =>
      cases hp : List.isPrefixOf (("sk-").data) k with
      | false => rw [dispatch_invalid_key k pm d hu (by simpa [apiKeyMissing] using hk) hp]
      | true =>
        cases d with
        | ok c => rw [dispatch_direct_ok k pm c hu (by simpa [apiKeyMissing] using hk) hp]
        | error em => rw [dispatch_direct_error k pm em hu (by simpa [apiKeyMissing] using hk) hp]

/-! ### Claim theorems -/

/-- C1: for every failure of the proxy attempt inside `sendMessage`, the
direct-provider fallback path is entered iff the failure message contains
`not configured`, `404` or `Failed to fetch`; every other proxy failure is
rethrown unchanged, with no direct-provider call issued. -/
theorem c1_fallback_iff_unavailable (apiKey : Option Str) (proxyMessage : Str)
    (directContent : Except Str (Option Str)) :
    ((sendMessageDispatch apiKey (Except.error proxyMessage) directContent).fallbackEntered = true ↔
      (containsSub proxyMessage (("not configured").data) ||
       containsSub proxyMessage (("404").data) ||
       containsSub proxyMessage (("Failed to fetch").data)) = true) ∧
    ((containsSub proxyMessage (("not configured").data) ||
      containsSub proxyMessage (("404").data) ||
      containsSub proxyMessage (("Failed to fetch").data)) = false →
      sendMessageDispatch apiKey (Except.error proxyMessage) directContent =
        { result := Except.error proxyMessage, proxyCalled := true,
          fallbackEntered := false, directCalled := false }) := by
  constructor
  · constructor
    · intro h
      cases hu : isProxyUnavailable proxyMessage with
      | false =>
        rw [dispatch_real_error _ _ _ hu] at h
        simp at h
      | true => simpa [isProxyUnavailable] using hu
    · intro h
      exact dispatch_fallback_of_unavailable _ _ _ (by simpa [isProxyUnavailable] using h)
  · intro h
    exact dispatch_real_error _ _ _ (by simpa [isProxyUnavailable] using h)

/-- Witness for C1 at a concrete real-error proxy failure. -/
theorem c1_witness :
    (containsSub (("Server error: 500").data) (("not configured").data) ||
     containsSub (("Server error: 500").data) (("404").data) ||
     containsSub (("Server error: 500").data) (("Failed to fetch").data)) = false ∧
    sendMessageDispatch none (Except.error (("Server error: 500").data)) (Except.error []) =
      { result := Except.error (("Server error: 500").data), proxyCalled := true,
        fallbackEntered := false, directCalled := false } :=
  ⟨by decide, (c1_fallback_iff_unavailable none (("Server error: 500").data) (Except.error [])).2 (by decide)⟩

/-- C2 counterexample: with the credential absent and the proxy succeeding,
`sendMessage` contacts the proxy and resolves normally — no credential
rejection is raised before a network call, so the credential checks do not
precede every network call. -/
theorem c2_counterexample :
    (sendMessageDispatch none (Except.ok (("hello").data)) (Except.error [])).proxyCalled = true ∧
    (sendMessageDispatch none (Except.ok (("hello").data)) (Except.error [])).result =
      Except.ok (("hello").data) :=
  ⟨rfl, rfl⟩

/-- C2 (amended): the proxy is always contacted first; when it fails with a
fallback-eligible message, a missing/empty credential or one without the
`sk-` prefix is rejected with the corresponding message before the
direct-provider call — the provider itself is never contacted. -/
theorem c2_credential_rejected_before_direct (apiKey : Option Str) (pm : Str)
    (d : Except Str (Option Str)) (hu : isProxyUnavailable pm = true) :
    (sendMessageDispatch apiKey (Except.error pm) d).proxyCalled = true ∧
    (apiKeyMissing apiKey = true →
      sendMessageDispatch apiKey (Except.error pm) d =
        { result := Except.error apiKeyRequiredMsg, proxyCalled := true,
          fallbackEntered := true, directCalled := false }) ∧
    (∀ k, apiKey = some k → k.isEmpty = false → List.isPrefixOf (("sk-").data) k = false →
      sendMessageDispatch apiKey (Except.error pm) d =
        { result := Except.error invalidApiKeyMsg, proxyCalled := true,
          fallbackEntered := true, directCalled := false }) := by
  refine ⟨dispatch_proxyCalled _ _ _, fun hk => dispatch_missing_key _ _ _ hu hk, ?_⟩
  rintro k rfl hk hp
  exact dispatch_invalid_key k pm d hu hk hp

/-- Witness for the amended C2 with a missing credential. -/
theorem c2_witness :
    isProxyUnavailable (("Failed to fetch").data) = true ∧
    apiKeyMissing (none : Option Str) = true ∧
    sendMessageDispatch none (Except.error (("Failed to fetch").data)) (Except.error []) =
      { result := Except.error apiKeyRequiredMsg, proxyCalled := true,
        fallbackEntered := true, directCalled := false } :=
  ⟨by decide, rfl,
   (c2_credential_rejected_before_direct none (("Failed to fetch").data) (Except.error []) (by decide)).2.1 rfl⟩

/-- C7: when the proxy attempt fails with a message containing
`Failed to fetch`, the proxy was invoked first, and the fallback rejects an
absent/empty credential with a message containing `API key required` and a
non-empty credential without the `sk-` prefix with a message containing
`Invalid API key`. -/
theorem c7_fetch_failure_fallback (apiKey : Option Str) (pm : Str) (d : Except Str (Option Str))
    (hftf : containsSub pm (("Failed to fetch").data) = true) :
    (sendMessageDispatch apiKey (Except.error pm) d).proxyCalled = true ∧
    (apiKeyMissing apiKey = true →
      (sendMessageDispatch apiKey (Except.error pm) d).result = Except.error apiKeyRequiredMsg ∧
      containsSub apiKeyRequiredMsg (("API key required").data) = true) ∧
    (∀ k, apiKey = some k → k.isEmpty = false → List.isPrefixOf (("sk-").data) k = false →
      (sendMessageDispatch apiKey (Except.error pm) d).result = Except.error invalidApiKeyMsg ∧
      containsSub invalidApiKeyMsg (("Invalid API key").data) = true) := by
  have hu : isProxyUnavailable pm = true := by simp [isProxyUnavailable, hftf]
  refine ⟨dispatch_proxyCalled _ _ _,
    fun hk => ⟨by rw [dispatch_missing_key _ _ _ hu hk], by decide⟩, ?_⟩
  rintro k rfl hk hp
  exact ⟨by rw [dispatch_invalid_key k pm d hu hk hp], by decide⟩

/-- Witness for C7 with the credential `invalid-key`. -/
theorem c7_witness :
    containsSub (("Failed to fetch").data) (("Failed to fetch").data) = true ∧
    (sendMessageDispatch (some (("invalid-key").data)) (Except.error (("Failed to fetch").data))
        (Except.error [])).result = Except.error invalidApiKeyMsg ∧
    containsSub invalidApiKeyMsg (("Invalid API key").data) = true :=
  ⟨by decide,
   ((c7_fetch_failure_fallback (some (("invalid-key").data)) (("Failed to fetch").data)
      (Except.error []) (by decide)).2.2 (("invalid-key").data) rfl (by decide) (by decide)).1,
   ((c7_fetch_failure_fallback (some (("invalid-key").data)) (("Failed to fetch").data)
      (Except.error []) (by decide)).2.2 (("invalid-key").data) rfl (by decide) (by decide)).2⟩

/-- C3 counterexample: the classification is case-sensitive — the message
`RATE LIMIT` contains `rate limit` case-insensitively, yet is propagated
unmodified rather than mapped to the rate-limited category. -/
theorem c3_counterexample :
    containsSub ((("RATE LIMIT").data).map Char.toLower) (("rate limit").data) = true ∧
    classifyError (("RATE LIMIT").data) = ("RATE LIMIT").data ∧
    ("RATE LIMIT").data ≠ rateLimitedMsg := by
  refine ⟨by decide, by decide, by decide⟩

/-- C3 (amended): the classification is total, inspects the raw failure text
case-SENSITIVELY, first match wins in priority order (`rate limit`, then
`context length`/`maximum`, then `API key`), and every unmatched message is
propagated unmodified. -/
theorem c3_classification_priority (m : Str) :
    (containsSub m (("rate limit").data) = true → classifyError m = rateLimitedMsg) ∧
    (containsSub m (("rate limit").data) = false →
      (containsSub m (("context length").data) || containsSub m (("maximum").data)) = true →
      classifyError m = contextTooLargeMsg) ∧
    (containsSub m (("rate limit").data) = false →
      (containsSub m (("context length").data) || containsSub m (("maximum").data)) = false →
      containsSub m (("API key").data) = true → classifyError m = credentialRejectedMsg) ∧
    (containsSub m (("rate limit").data) = false →
      (containsSub m (("context length").data) || containsSub m (("maximum").data)) = false →
      containsSub m (("API key").data) = false → classifyError m = m) := by
  refine ⟨fun h => by simp [classifyError, h],
    fun h1 h2 => by simp [classifyError, h1, h2],
    fun h1 h2 h3 => by simp [classifyError, h1, h2, h3],
    fun h1 h2 h3 => by simp [classifyError, h1, h2, h3]⟩

/-- Witness for the amended C3 on a rate-limit message. -/
theorem c3_witness :
    containsSub (("Provider rejected: rate limit reached").data) (("rate limit").data) = true ∧
    classifyError (("Provider rejected: rate limit reached").data) = rateLimitedMsg :=
  ⟨by decide, (c3_classification_priority (("Provider rejected: rate limit reached").data)).1 (by decide)⟩

/-- C10: a successful direct-provider completion with empty or absent content
resolves with the fixed `No response generated.` string; the direct path
never resolves with an empty response string. -/
theorem c10_no_empty_response (content : Option Str) :
    ((content = none ∨ content = some []) → respContent content = noResponseMsg) ∧
    respContent content ≠ [] ∧
    (∀ (k : Str) (pm : Str), isProxyUnavailable pm = true → k.isEmpty = false →
      List.isPrefixOf (("sk-").data) k = true →
      (sendMessageDispatch (some k) (Except.error pm) (Except.ok content)).result =
        Except.ok (respContent content)) := by
  refine ⟨?_, ?_, ?_⟩
  · rintro (rfl | rfl) <;> rfl
  · cases content with
    | none => exact by decide
    | some s =>
      cases s with
      | nil => exact by decide
      | cons a as => simp [respContent, List.isEmpty]
  · intro k pm hu hk hp
    rw [dispatch_direct_ok k pm content hu hk hp]

/-- Witness for C10 at an empty completion content. -/
theorem c10_witness :
    ((some [] : Option Str) = none ∨ (some [] : Option Str) = some []) ∧
    respContent (some []) = noResponseMsg ∧
    isProxyUnavailable (("404").data) = true ∧
    (sendMessageDispatch (some (("sk-abc").data)) (Except.error (("404").data))
        (Except.ok (some []))).result = Except.ok (respContent (some [])) :=
  ⟨Or.inr rfl, (c10_no_empty_response (some [])).1 (Or.inr rfl), by decide,
   (c10_no_empty_response (some [])).2.2 (("sk-abc").data) (("404").data) (by decide) (by decide) (by decide)⟩

/-- C4 counterexample: at `maxLength = 5` and text `abcd\nXY`, the last
line-break of the 5-character slice sits at position 4, which equals
`0.8 * maxLength` exactly; the claimed `≥` rule would cut at the line-break
(yielding `abcd` plus the marker), but the code's strict `>` comparison cuts
at `maxLength` (keeping the line-break). -/
theorem c4_counterexample :
    (("abcd\nXY").data).length > 5 ∧
    lastIndexOfNl ((("abcd\nXY").data).take 5) = 4 ∧
    5 * (4 : Int) ≥ 4 * (5 : Int) ∧
    truncateText (("abcd\nXY").data) 5 =
      { text := ("abcd\n").data ++ truncMarker, truncated := true } ∧
    ("abcd\n").data ++ truncMarker ≠ ("abcd").data ++ truncMarker := by
  refine ⟨by decide, by decide, by decide, by decide, by decide⟩

/-- C4 (amended): for every text longer than `maxLength`, `truncateText`
takes the first `maxLength` characters, finds the last line-break of that
slice, cuts at that line-break when its position is STRICTLY greater than
`0.8 * maxLength` and exactly at `maxLength` otherwise, then appends the
fixed marker. -/
theorem c4_cut_rule (t : Str) (m : Nat) (h : m < t.length) :
    (5 * lastIndexOfNl (t.take m) > 4 * (m : Int) →
      truncateText t m =
        { text := (t.take m).take (lastIndexOfNl (t.take m)).toNat ++ truncMarker,
          truncated := true }) ∧
    (¬ 5 * lastIndexOfNl (t.take m) > 4 * (m : Int) →
      truncateText t m = { text := t.take m ++ truncMarker, truncated := true }) := by
  constructor
  · intro hcut
    rw [truncateText_of_lt t m h, if_pos hcut]
  · intro hcut
    rw [truncateText_of_lt t m h, if_neg hcut]
    have hm : ((m : Int)).toNat = m := by simp
    rw [hm, List.take_take, Nat.min_self]

/-- Witness for the amended C4 in the line-break-cut branch. -/
theorem c4_witness :
    (10 : Nat) < (("abcdefghi\nXYZ").data).length ∧
    5 * lastIndexOfNl ((("abcdefghi\nXYZ").data).take 10) > 4 * (10 : Int) ∧
    truncateText (("abcdefghi\nXYZ").data) 10 =
      { text := ((("abcdefghi\nXYZ").data).take 10).take
          (lastIndexOfNl ((("abcdefghi\nXYZ").data).take 10)).toNat ++ truncMarker,
        truncated := true } :=
  ⟨by decide, by decide,
   (c4_cut_rule (("abcdefghi\nXYZ").data) 10 (by decide)).1 (by decide)⟩

/-- C5: a text within the budget is returned unchanged and unmarked; a text
over the budget is truncated with output length at most
`maxLength + length(marker)` and the truncated flag set. -/
theorem c5_truncate_bounds (t : Str) (m : Nat) :
    (t.length ≤ m → truncateText t m = { text := t, truncated := false }) ∧
    (m < t.length →
      (truncateText t m).text.length ≤ m + truncMarker.length ∧
      (truncateText t m).truncated = true) :=
  ⟨fun h => truncateText_of_le t m h,
   fun h => ⟨truncateText_len_le t m h, truncateText_truncated_of_lt t m h⟩⟩

/-- Witness for C5 in both branches. -/
theorem c5_witness :
    ((("ab").data).length ≤ 5 ∧
      truncateText (("ab").data) 5 = { text := ("ab").data, truncated := false }) ∧
    (5 < (("abcdefgh").data).length ∧
      ((truncateText (("abcdefgh").data) 5).text.length ≤ 5 + truncMarker.length ∧
       (truncateText (("abcdefgh").data) 5).truncated = true)) :=
  ⟨⟨by decide, (c5_truncate_bounds (("ab").data) 5).1 (by decide)⟩,
   ⟨by decide, (c5_truncate_bounds (("abcdefgh").data) 5).2 (by decide)⟩⟩

theorem lineCount_joinNl_replicate (chunk : Str) (hc : chunk.count '\n' = 0) (n : Nat) :
    (splitNl (joinNl (List.replicate (n + 1) chunk))).length = n + 1 := by
  rw [splitNl_length, count_nl_joinNl chunk hc n]

set_option maxRecDepth 200000 in
/-- C8: `buildSystemPrompt` includes the `LARGE FILE WARNING` instruction
block exactly when the line count of `codeContext` exceeds 100: for every
input with more than 100 lines the prompt contains the substring (proved in
general, and instantiated at the repository's 150-line test input), and for
the 50-line input of the same shape the prompt does not contain it. -/
theorem c8_large_file_warning :
    (∀ (code lang : Str), 100 < (splitNl code).length →
      containsSub (buildSystemPrompt code lang) (("LARGE FILE WARNING").data) = true) ∧
    containsSub (buildSystemPrompt code150 (("typescript").data)) (("LARGE FILE WARNING").data) = true ∧
    containsSub (buildSystemPrompt code50 (("typescript").data)) (("LARGE FILE WARNING").data) = false := by
  have hgen : ∀ (code lang : Str), 100 < (splitNl code).length →
      containsSub (buildSystemPrompt code lang) (("LARGE FILE WARNING").data) = true := by
    intro code lang h
    simp only [buildSystemPrompt]
    rw [if_pos h]
    simp only [List.append_assoc]
    apply containsSub_append_right
    apply containsSub_append_right
    apply containsSub_append_right
    apply containsSub_append_right
    apply containsSub_append_right
    apply containsSub_append_right
    apply containsSub_append_right
    apply containsSub_append_right
    apply containsSub_append_right
    rw [largeFileBlock]
    simp only [List.append_assoc]
    exact containsSub_append_left _ _ _ (by decide)
  have h150 : 100 < (splitNl code150).length := by
    have heq : code150 = joinNl (List.replicate (149 + 1) (("const x = 1;").data)) := rfl
    rw [heq, lineCount_joinNl_replicate (("const x = 1;").data) (by decide) 149]
    omega
  exact ⟨hgen, hgen code150 (("typescript").data) h150, by decide⟩

set_option maxRecDepth 200000 in
/-- Witness for C8 at the 150-line test input. -/
theorem c8_witness :
    100 < (splitNl code150).length ∧
    containsSub (buildSystemPrompt code150 (("typescript").data)) (("LARGE FILE WARNING").data) = true := by
  have h150 : 100 < (splitNl code150).length := by
    have heq : code150 = joinNl (List.replicate (149 + 1) (("const x = 1;").data)) := rfl
    rw [heq, lineCount_joinNl_replicate (("const x = 1;").data) (by decide) 149]
    omega
  exact ⟨h150, c8_large_file_warning.1 code150 (("typescript").data) h150⟩

/-- C6: when the primary code context exceeds the 15000-character budget and
more than 5 files are open, the assembled context is exactly: the truncated
primary context, the open-files header, the sections of the first 5 open
files in original order (each content independently truncated to the
5000-character per-file budget), and the two queued notes — the primary
truncation note and the only-5-of-N note — appended at the end; moreover
each retained file whose content exceeds the per-file budget carries the
inline ` [truncated]` marker in its section. -/
theorem c6_assembled_context (code : Str) (files : List OpenFile)
    (hcode : MAX_CODE_CONTEXT_LENGTH < code.length) (hfiles : 5 < files.length) :
    assembleContext code files =
      (truncateText code MAX_CODE_CONTEXT_LENGTH).text ++ otherFilesHeader ++
      joinNl ((files.take 5).map fileSection) ++
      primaryTruncNote ++ omittedFilesNote 5 files.length ∧
    (∀ f ∈ files.take 5, MAX_FILE_CONTEXT_LENGTH < f.content.length →
      containsSub (fileSection f) ((" [truncated]").data) = true) := by
  constructor
  · have htr : (truncateText code MAX_CODE_CONTEXT_LENGTH).truncated = true :=
      truncateText_truncated_of_lt _ _ hcode
    simp only [assembleContext, htr, if_true]
    rw [if_pos (show files.length > 0 by omega)]
    rw [if_pos (show files.length > 5 from hfiles)]
    rw [if_pos (show primaryTruncNote ++ omittedFilesNote 5 files.length ≠ [] by
      intro hnil
      rw [List.append_eq_nil] at hnil
      exact absurd hnil.1 (by decide))]
    simp only [List.append_assoc]
  · intro f _ hlen
    have ht : (truncateText f.content MAX_FILE_CONTEXT_LENGTH).truncated = true :=
      truncateText_truncated_of_lt _ _ hlen
    simp only [fileSection, ht, if_true]
    simp only [List.append_assoc]
    apply containsSub_append_right
    apply containsSub_append_right
    apply containsSub_append_right
    apply containsSub_append_right
    apply containsSub_append_right
    exact containsSub_append_left _ _ _ (by decide)

/-- Witness for C6: a 20000-character primary selection with six open files
of 6000 characters each. -/
theorem c6_witness :
    MAX_CODE_CONTEXT_LENGTH < code20000.length ∧ 5 < files6.length ∧
    assembleContext code20000 files6 =
      (truncateText code20000 MAX_CODE_CONTEXT_LENGTH).text ++ otherFilesHeader ++
      joinNl ((files6.take 5).map fileSection) ++
      primaryTruncNote ++ omittedFilesNote 5 files6.length ∧
    containsSub (fileSection (sampleFile 1)) ((" [truncated]").data) = true := by
  have hlen20000 : code20000.length = 20000 := by
    rw [code20000]
    exact List.length_replicate _ _
  have hcode : MAX_CODE_CONTEXT_LENGTH < code20000.length := by
    rw [hlen20000]
    decide
  have hfiles : 5 < files6.length := by
    have h6 : files6.length = 6 := rfl
    rw [h6]
    decide
  have h := c6_assembled_context code20000 files6 hcode hfiles
  refine ⟨hcode, hfiles, h.1, h.2 (sampleFile 1) ?_ ?_⟩
  · have htake : files6.take 5 =
        [sampleFile 1, sampleFile 2, sampleFile 3, sampleFile 4, sampleFile 5] := rfl
    rw [htake]
    exact List.mem_cons_self _ _
  · have hc : (sampleFile 1).content.length = 6000 := by
      show (List.replicate 6000 'a').length = 6000
      exact List.length_replicate _ _
    rw [hc]
    decide

/-- C9: `addMessageToThread` leaves every non-`threads` store field
unchanged, leaves every thread whose id differs from the target unchanged,
changes the matching thread only by appending the message at the end of its
message list, and leaves the entire state unchanged when no thread has the
target id. -/
theorem c9_addMessage_frame (s : Store) (threadId : Str) (message : Message) :
    (addMessageToThread s threadId message).activeSelection = s.activeSelection ∧
    (addMessageToThread s threadId message).activeThreadId = s.activeThreadId ∧
    (addMessageToThread s threadId message).language = s.language ∧
    (addMessageToThread s threadId message).apiKey = s.apiKey ∧
    (addMessageToThread s threadId message).currentFile = s.currentFile ∧
    (addMessageToThread s threadId message).openFiles = s.openFiles ∧
    (addMessageToThread s threadId message).activeFileId = s.activeFileId ∧
    (addMessageToThread s threadId message).snippets = s.snippets ∧
    (addMessageToThread s threadId message).threads.length = s.threads.length ∧
    (∀ (i : Nat) (t : Thread), s.threads[i]? = some t → t.id ≠ threadId →
      (addMessageToThread s threadId message).threads[i]? = some t) ∧
    (∀ (i : Nat) (t : Thread), s.threads[i]? = some t → t.id = threadId →
      (addMessageToThread s threadId message).threads[i]? =
        some { t with messages := t.messages ++ [message] }) ∧
    ((∀ t ∈ s.threads, t.id ≠ threadId) → addMessageToThread s threadId message = s) := by
  refine ⟨rfl, rfl, rfl, rfl, rfl, rfl, rfl, rfl, ?_, ?_, ?_, ?_⟩
  · simp [addMessageToThread]
  · intro i t h hne
    show (s.threads.map _)[i]? = some t
    rw [List.getElem?_map, h]
    simp [hne]
  · intro i t h heq
    show (s.threads.map _)[i]? = some _
    rw [List.getElem?_map, h]
    simp [heq]
  · intro hnone
    have hmap : s.threads.map (fun t =>
        if t.id = threadId then { t with messages := t.messages ++ [message] } else t) = s.threads :=
      (List.map_congr_left (fun t ht => if_neg (hnone t ht))).trans (List.map_id _)
    show { s with threads := s.threads.map _ } = s
    rw [hmap]

/-- Witness for C9: appending to a nonexistent thread id leaves the sample
store unchanged. -/
theorem c9_witness :
    (∀ t ∈ store0.threads, t.id ≠ ("zz").data) ∧
    addMessageToThread store0 (("zz").data) sampleMessage = store0 := by
  have hno : ∀ t ∈ store0.threads, t.id ≠ ("zz").data := by decide
  exact ⟨hno,
    (c9_addMessage_frame store0 (("zz").data) sampleMessage).2.2.2.2.2.2.2.2.2.2.2 hno⟩
